import Mathlib

/-!
Shallow embedding of kerla src/kernel/arch/x64/thread.rs: the Thread
context record, the stack-frame construction routines (new_kthread,
new_user_thread, new_idle_thread, fork), signal injection
(set_signal_entry) and the context switcher (switch_thread).

A kernel stack frame is modelled as a list of 64-bit words in pop order
(head = the word at the saved stack pointer, i.e. the last word pushed),
together with the numeric value of the stack pointer. push_stack mirrors
the Rust push_stack: it decrements the pointer by 8 and writes the word.
-/

namespace Kerla

/-- Modelled from the spec: the addresses of the five external entry
primitives (declared as foreign symbols in thread.rs, bodies outside
src/) and the user-mode segment-selector constants from gdt.rs (outside
src/). They enter the frame-building code only as abstract 64-bit
values, so they are parameters of the embedding. -/
structure EntryTable where
  kthread_entry : Nat
  userland_entry : Nat
  forked_child_entry : Nat
  signal_handler_entry : Nat
  USER_CS64 : Nat
  USER_DS : Nat
  USER_RPL : Nat
deriving DecidableEq

/-- The captured syscall frame (struct SyscallFrame in syscall.rs, outside
src/). Modelled from the spec and from the fields thread.rs reads:
instruction pointer, flags, stack pointer and the general registers
captured at syscall entry. -/
structure SyscallFrame where
  rip : Nat
  rflags : Nat
  rsp : Nat
  rdi : Nat
  rsi : Nat
  rdx : Nat
  r8 : Nat
  r9 : Nat
  r10 : Nat
  rbp : Nat
  rbx : Nat
  r12 : Nat
  r13 : Nat
  r14 : Nat
  r15 : Nat
deriving DecidableEq

/-- struct Thread: saved stack pointer (as its numeric value rspAddr plus
the frame content it points at, rspStack, top word first), fsbase,
optional xsave area address, and the two per-thread kernel stacks. -/
structure Thread where
  rspAddr : Nat
  rspStack : List Nat
  fsbase : Nat
  xsave_area : Option Nat
  interrupt_stack : Nat
  syscall_stack : Nat
deriving DecidableEq

/-- fn push_stack(rsp, value): decrement the stack pointer by one
64-bit word and write the value there. On the list view the written word
becomes the new top. -/
def push_stack (p : Nat × List Nat) (v : Nat) : Nat × List Nat :=
  (p.1 - 8, v :: p.2)

/-- Outcome of the constructors: Ok(thread), Err (the recoverable error
arm of kerla Result), or a kernel panic raised by .expect(msg). -/
inductive KOutcome
  | ok (t : Thread)
  | err
  | panicked (msg : String)
deriving DecidableEq

/-- True exactly on the Err arm. -/
def KOutcome.isErr : KOutcome → Bool
  | .err => true
  | _ => false

/-- The frame content of an Ok outcome, if any. -/
def KOutcome.stackOf : KOutcome → Option (List Nat)
  | .ok t => some t.rspStack
  | _ => none

/-- Modelled from the spec: kernel stacks are one page. KERNEL_STACK_SIZE
is defined outside src/. -/
def KERNEL_STACK_SIZE : Nat := 4096

/-- Thread::new_kthread(ip, sp). alloc models the page allocator: the
result of the n-th alloc_pages call of this invocation; a None result
makes the .expect(msg) call panic. Pushes, on the supplied stack sp: the
entry point ip, then the do_switch_thread footer (kthread_entry as RIP,
six zeroed callee-saved slots, RFLAGS = 0x02 with interrupts disabled). -/
def new_kthread (E : EntryTable) (alloc : Nat → Option Nat) (ip sp : Nat) : KOutcome :=
  match alloc 0 with
  | none => .panicked "failed to allocate kernel stack"
  | some interrupt_stack =>
  match alloc 1 with
  | none => .panicked "failed to allocate kernel stack"
  | some syscall_stack =>
    let p := (sp, ([] : List Nat))
    let p := push_stack p ip
    let p := push_stack p E.kthread_entry
    let p := push_stack p 0
    let p := push_stack p 0
    let p := push_stack p 0
    let p := push_stack p 0
    let p := push_stack p 0
    let p := push_stack p 0
    let p := push_stack p 0x02
    .ok { rspAddr := p.1, rspStack := p.2, fsbase := 0, xsave_area := none,
          interrupt_stack := interrupt_stack, syscall_stack := syscall_stack }

/-- Thread::new_user_thread(ip, sp, kernel_sp). Allocates the two kernel
stacks and an xsave area. Pushes on kernel_sp the IRET layer
(SS = USER_DS or-ed with USER_RPL, user RSP = sp, RFLAGS = 0x202 with
interrupts enabled, CS = USER_CS64 or-ed with USER_RPL, RIP = ip), then
the do_switch_thread footer (userland_entry, six zeros, RFLAGS 0x02). -/
def new_user_thread (E : EntryTable) (alloc : Nat → Option Nat)
    (ip sp kernel_sp : Nat) : KOutcome :=
  match alloc 0 with
  | none => .panicked "failed to allocate kernel stack"
  | some interrupt_stack =>
  match alloc 1 with
  | none => .panicked "failed to allocate kernel stack"
  | some syscall_stack =>
  match alloc 2 with
  | none => .panicked "failed to allocate xsave area"
  | some xsave_area =>
    let p := (kernel_sp, ([] : List Nat))
    let p := push_stack p (E.USER_DS ||| E.USER_RPL)
    let p := push_stack p sp
    let p := push_stack p 0x202
    let p := push_stack p (E.USER_CS64 ||| E.USER_RPL)
    let p := push_stack p ip
    let p := push_stack p E.userland_entry
    let p := push_stack p 0
    let p := push_stack p 0
    let p := push_stack p 0
    let p := push_stack p 0
    let p := push_stack p 0
    let p := push_stack p 0
    let p := push_stack p 0x02
    .ok { rspAddr := p.1, rspStack := p.2, fsbase := 0,
          xsave_area := some xsave_area,
          interrupt_stack := interrupt_stack, syscall_stack := syscall_stack }

/-- Thread::new_idle_thread(): allocates the two kernel stacks and leaves
the saved stack pointer at the sentinel zero. -/
def new_idle_thread (alloc : Nat → Option Nat) : KOutcome :=
  match alloc 0 with
  | none => .panicked "failed to allocate kernel stack"
  | some interrupt_stack =>
  match alloc 1 with
  | none => .panicked "failed to allocate kernel stack"
  | some syscall_stack =>
    .ok { rspAddr := 0, rspStack := [], fsbase := 0, xsave_area := none,
          interrupt_stack := interrupt_stack, syscall_stack := syscall_stack }

/-- Thread::fork(&self, frame) -> Result of Thread. Allocation order as in
the source: xsave area, the fresh kernel stack, then interrupt and
syscall stacks; every allocation goes through .expect, so a failed
request panics (the Err arm is never produced). Pushes, on the fresh
kernel stack: the IRET layer from the captured frame (SS, user RSP, user
RFLAGS, CS, user RIP), the forked_child_entry layer (R11 = rflags,
RCX = rip, r10, r9, r8, rsi, rdi, rdx) and the do_switch_thread footer
carrying the captured callee-saved registers and RFLAGS 0x02. -/
def fork (self : Thread) (frame : SyscallFrame) (alloc : Nat → Option Nat)
    (E : EntryTable) : KOutcome :=
  match alloc 0 with
  | none => .panicked "failed to allocate xsave area"
  | some xsave_area =>
  match alloc 1 with
  | none => .panicked "failed allocate kernel stack"
  | some kernel_sp =>
    let p := (kernel_sp, ([] : List Nat))
    let p := push_stack p (E.USER_DS ||| E.USER_RPL)
    let p := push_stack p frame.rsp
    let p := push_stack p frame.rflags
    let p := push_stack p (E.USER_CS64 ||| E.USER_RPL)
    let p := push_stack p frame.rip
    let p := push_stack p frame.rflags
    let p := push_stack p frame.rip
    let p := push_stack p frame.r10
    let p := push_stack p frame.r9
    let p := push_stack p frame.r8
    let p := push_stack p frame.rsi
    let p := push_stack p frame.rdi
    let p := push_stack p frame.rdx
    let p := push_stack p E.forked_child_entry
    let p := push_stack p frame.rbp
    let p := push_stack p frame.rbx
    let p := push_stack p frame.r12
    let p := push_stack p frame.r13
    let p := push_stack p frame.r14
    let p := push_stack p frame.r15
    let p := push_stack p 0x02
  match alloc 2 with
  | none => .panicked "failed allocate kernel stack"
  | some interrupt_stack =>
  match alloc 3 with
  | none => .panicked "failed allocate kernel stack"
  | some syscall_stack =>
    .ok { rspAddr := p.1, rspStack := p.2, fsbase := self.fsbase,
          xsave_area := some xsave_area,
          interrupt_stack := interrupt_stack, syscall_stack := syscall_stack }

/-- Observable effects of Thread::set_signal_entry: pushes into the local
scratch array tmp, pushes onto the target thread kernel stack, the
explicit drop of the SpinLockGuard, the non-returning
jmp direct_signal_handler_entry, the write of this.rsp, and the normal
return (which lets the guard drop run). -/
inductive SigEvent
  | pushScratch (v : Nat)
  | pushOwn (v : Nat)
  | dropLock
  | jumpDirect
  | writeRsp (a : Nat)
  | retNormal
deriving DecidableEq

/-- True exactly on pushOwn events. -/
def SigEvent.isPushOwn : SigEvent → Bool
  | .pushOwn _ => true
  | _ => false

/-- True exactly on writeRsp events. -/
def SigEvent.isWriteRsp : SigEvent → Bool
  | .writeRsp _ => true
  | _ => false

/-- Thread::set_signal_entry(this, user_rip, user_rsp, arg1, arg2, arg3,
is_current_process), called with the SpinLockGuard over the target held.
Returns the target Thread after the call together with the ordered list
of its observable effects. Both branches first push user_rsp, user_rip,
RFLAGS 0x202, arg1, arg2, arg3 — onto the 8-word scratch array tmp when
is_current_process, otherwise onto the stack at this.rsp. The self branch
then drops the guard and jumps, never touching this.rsp; the other branch
pushes the do_switch_thread footer (signal_handler_entry, six zeros,
RFLAGS 0x02) and stores the new top into this.rsp before returning. -/
def set_signal_entry (this : Thread) (user_rip user_rsp arg1 arg2 arg3 : Nat)
    (is_current_process : Bool) (E : EntryTable) : Thread × List SigEvent :=
  if is_current_process then
    (this,
      [.pushScratch user_rsp, .pushScratch user_rip, .pushScratch 0x202,
       .pushScratch arg1, .pushScratch arg2, .pushScratch arg3,
       .dropLock, .jumpDirect])
  else
    let p := (this.rspAddr, this.rspStack)
    let p := push_stack p user_rsp
    let p := push_stack p user_rip
    let p := push_stack p 0x202
    let p := push_stack p arg1
    let p := push_stack p arg2
    let p := push_stack p arg3
    let p := push_stack p E.signal_handler_entry
    let p := push_stack p 0
    let p := push_stack p 0
    let p := push_stack p 0
    let p := push_stack p 0
    let p := push_stack p 0
    let p := push_stack p 0
    let p := push_stack p 0x02
    ({ this with rspAddr := p.1, rspStack := p.2 },
      [.pushOwn user_rsp, .pushOwn user_rip, .pushOwn 0x202,
       .pushOwn arg1, .pushOwn arg2, .pushOwn arg3,
       .pushOwn E.signal_handler_entry, .pushOwn 0, .pushOwn 0, .pushOwn 0,
       .pushOwn 0, .pushOwn 0, .pushOwn 0, .pushOwn 0x02,
       .writeRsp p.1, .dropLock, .retNormal])

/-- Observable effects of switch_thread: the write of the per-core
head.rsp0 slot, the write of the hardware task-state-segment rsp0, the
single read of the XCR0 feature mask, the xsave into the previous
thread buffer, the xrstor from the next thread buffer, the write of the
poisoned head.rsp3, wrfsbase, and the do_switch_thread register
exchange. -/
inductive SwitchEvent
  | setCpuRsp0 (v : Nat)
  | setTssRsp0 (v : Nat)
  | readXcr0
  | xsaveTo (buf mask : Nat)
  | xrstorFrom (buf mask : Nat)
  | setRsp3 (v : Nat)
  | setFsbase (v : Nat)
  | doSwitch
deriving DecidableEq

/-- True exactly on the readXcr0 event. -/
def SwitchEvent.isReadXcr0 : SwitchEvent → Bool
  | .readXcr0 => true
  | _ => false

/-- The sentinel written into head.rsp3 by switch_thread. -/
def RSP3_POISON : Nat := 0xbaad5a5a5b5bbaad

/-- switch_thread(prev, next) as its ordered effect trace, with xcr0 the
value the single x86 controlregs xcr0() read returns. Writes the
syscall-stack top of next into head.rsp0 and the interrupt-stack top of
next into the TSS, reads the feature mask once, saves to prev and
restores from next only when the respective xsave_area is present,
poisons head.rsp3, loads next.fsbase and finally calls
do_switch_thread. -/
def switch_thread (prev next : Thread) (xcr0 : Nat) : List SwitchEvent :=
  [.setCpuRsp0 (next.syscall_stack + KERNEL_STACK_SIZE),
   .setTssRsp0 (next.interrupt_stack + KERNEL_STACK_SIZE),
   .readXcr0]
  ++ (match prev.xsave_area with
      | some buf => [.xsaveTo buf xcr0]
      | none => [])
  ++ (match next.xsave_area with
      | some buf => [.xrstorFrom buf xcr0]
      | none => [])
  ++ [.setRsp3 RSP3_POISON, .setFsbase next.fsbase, .doSwitch]

/-- A concrete entry table used by witnesses and counterexamples. The
theorems are universally quantified over the table; any instantiation is
admissible. -/
def entryTable0 : EntryTable :=
  { kthread_entry := 0x1111, userland_entry := 0x2222,
    forked_child_entry := 0x3333, signal_handler_entry := 0x4444,
    USER_CS64 := 0x20, USER_DS := 0x18, USER_RPL := 3 }

/-- A concrete always-succeeding allocator used by witnesses. -/
def allocOk : Nat → Option Nat := fun i => some (0x7000 + 0x1000 * i)

/-- A concrete captured syscall frame used by witnesses. -/
def frame0 : SyscallFrame :=
  { rip := 0xA1, rflags := 0x246, rsp := 0xB2, rdi := 1, rsi := 2, rdx := 3,
    r8 := 4, r9 := 5, r10 := 6, rbp := 7, rbx := 8, r12 := 9, r13 := 10,
    r14 := 11, r15 := 12 }

/-- A concrete thread used by witnesses. -/
def thread0 : Thread :=
  { rspAddr := 0x9000, rspStack := [0xAA, 0xBB], fsbase := 0x77,
    xsave_area := none, interrupt_stack := 0x5000, syscall_stack := 0x6000 }

/-- C4 (amended): for every entry E and stack top S for which the
allocations succeed, the layout built by new_kthread reads, in pop
order: the disabled-interrupts flags value 0x02, then the SIX ZERO
general-purpose slots, then the kernel-thread-start primitive as the
saved instruction pointer, then E itself; and the Thread has no
extended-state buffer. (The claim as frozen puts the saved instruction
pointer immediately after the flags, before the six zero slots; the pop
order defined by the push sequence places it after them.) -/
theorem new_kthread_layout (E : EntryTable) (alloc : Nat → Option Nat)
    (ip sp : Nat) (t : Thread) (h : new_kthread E alloc ip sp = KOutcome.ok t) :
    t.rspStack = [0x02, 0, 0, 0, 0, 0, 0, E.kthread_entry, ip] ∧
    t.xsave_area = none := by
  cases h0 : alloc 0 with
  | none => simp [new_kthread, h0] at h
  | some a =>
    cases h1 : alloc 1 with
    | none => simp [new_kthread, h0, h1] at h
    | some b =>
      simp [new_kthread, h0, h1, push_stack] at h
      subst h
      exact ⟨rfl, rfl⟩

/-- The Thread new_kthread builds from the concrete witness inputs. -/
def kthread0 : Thread :=
  { rspAddr := 0x8FB8, rspStack := [0x02, 0, 0, 0, 0, 0, 0, 0x1111, 0x42],
    fsbase := 0, xsave_area := none,
    interrupt_stack := 0x7000, syscall_stack := 0x8000 }

/-- Witness for the amended C4 theorem at concrete inputs. -/
theorem new_kthread_layout_witness :
    kthread0.rspStack =
      [0x02, 0, 0, 0, 0, 0, 0, entryTable0.kthread_entry, 0x42] ∧
    kthread0.xsave_area = none :=
  new_kthread_layout entryTable0 allocOk 0x42 0x9000 kthread0 (by decide)

/-- C4 counterexample: at kthread_entry = 0x1111, entry E = 0x42, the
sequence the layout actually yields in pop order is
flags, six zeros, kthread_entry, E — not the claimed
flags, kthread_entry, six zeros, E. -/
theorem new_kthread_pop_order_counterexample :
    KOutcome.stackOf (new_kthread entryTable0 allocOk 0x42 0x9000) =
      some [0x02, 0, 0, 0, 0, 0, 0, 0x1111, 0x42] ∧
    [0x02, 0, 0, 0, 0, 0, 0, 0x1111, 0x42] ≠
      ([0x02, 0x1111, 0, 0, 0, 0, 0, 0, 0x42] : List Nat) := by
  exact ⟨by decide, by decide⟩

/-- C3: for every entry ip, user stack top sp and kernel stack top for
which the allocations succeed, the layout built by new_user_thread
carries, in its outer IRET layer, exactly ip as the instruction pointer,
exactly sp as the user stack value, the flags word 0x202 whose
interrupt bit (bit 9) is set, and the user-mode selector constants
or-ed with the user privilege level; the inner do_switch_thread layer
holds the user-thread-start primitive and the flags word 0x02 whose
interrupt bit is clear. -/
theorem new_user_thread_layout (E : EntryTable) (alloc : Nat → Option Nat)
    (ip sp kernel_sp : Nat) (t : Thread)
    (h : new_user_thread E alloc ip sp kernel_sp = KOutcome.ok t) :
    t.rspStack =
      [0x02, 0, 0, 0, 0, 0, 0, E.userland_entry, ip,
       E.USER_CS64 ||| E.USER_RPL, 0x202, sp, E.USER_DS ||| E.USER_RPL] ∧
    Nat.testBit 0x202 9 = true ∧ Nat.testBit 0x02 9 = false := by
  cases h0 : alloc 0 with
  | none => simp [new_user_thread, h0] at h
  | some a =>
    cases h1 : alloc 1 with
    | none => simp [new_user_thread, h0, h1] at h
    | some b =>
      cases h2 : alloc 2 with
      | none => simp [new_user_thread, h0, h1, h2] at h
      | some c =>
        simp [new_user_thread, h0, h1, h2, push_stack] at h
        subst h
        exact ⟨rfl, by decide, by decide⟩

/-- The Thread new_user_thread builds from the concrete witness inputs. -/
def userThread0 : Thread :=
  { rspAddr := 0x8F98,
    rspStack := [0x02, 0, 0, 0, 0, 0, 0, 0x2222, 0xA1, 0x23, 0x202, 0xB2, 0x1B],
    fsbase := 0, xsave_area := some 0x9000,
    interrupt_stack := 0x7000, syscall_stack := 0x8000 }

/-- Witness for the C3 theorem at concrete inputs. -/
theorem new_user_thread_layout_witness :
    userThread0.rspStack =
      [0x02, 0, 0, 0, 0, 0, 0, entryTable0.userland_entry, 0xA1,
       entryTable0.USER_CS64 ||| entryTable0.USER_RPL, 0x202, 0xB2,
       entryTable0.USER_DS ||| entryTable0.USER_RPL] ∧
    Nat.testBit 0x202 9 = true ∧ Nat.testBit 0x02 9 = false :=
  new_user_thread_layout entryTable0 allocOk 0xA1 0xB2 0x9000 userThread0
    (by decide)

/-- C1 (amended): fork never produces the Err arm of its Result: every
allocation request in fork goes through .expect, so if any of the four
page requests cannot be satisfied the call panics (the same fail-fast
policy as the other constructors) instead of returning a recoverable
error; when fork does return, it returns Ok with a fully constructed
Thread, so no partially constructed Thread is observable to the
caller. -/
theorem fork_never_returns_err (self : Thread) (frame : SyscallFrame)
    (alloc : Nat → Option Nat) (E : EntryTable) :
    (fork self frame alloc E).isErr = false ∧
    ((alloc 0 = none ∨ alloc 1 = none ∨ alloc 2 = none ∨ alloc 3 = none) →
      ∃ msg, fork self frame alloc E = KOutcome.panicked msg) := by
  cases h0 : alloc 0 with
  | none =>
    refine ⟨by simp [fork, h0, KOutcome.isErr], fun _ => ?_⟩
    exact ⟨"failed to allocate xsave area", by simp [fork, h0]⟩
  | some xa =>
    cases h1 : alloc 1 with
    | none =>
      refine ⟨by simp [fork, h0, h1, KOutcome.isErr], fun _ => ?_⟩
      exact ⟨"failed allocate kernel stack", by simp [fork, h0, h1]⟩
    | some ksp =>
      cases h2 : alloc 2 with
      | none =>
        refine ⟨by simp [fork, h0, h1, h2, KOutcome.isErr], fun _ => ?_⟩
        exact ⟨"failed allocate kernel stack", by simp [fork, h0, h1, h2]⟩
      | some ist =>
        cases h3 : alloc 3 with
        | none =>
          refine ⟨by simp [fork, h0, h1, h2, h3, KOutcome.isErr], fun _ => ?_⟩
          exact ⟨"failed allocate kernel stack", by simp [fork, h0, h1, h2, h3]⟩
        | some sst =>
          refine ⟨by simp [fork, h0, h1, h2, h3, KOutcome.isErr], fun hor => ?_⟩
          rcases hor with h | h | h | h <;> exact absurd h (by simp)

/-- Witness for the amended C1 theorem: with an allocator that denies
every request, fork does not produce the Err arm and panics. -/
theorem fork_never_returns_err_witness :
    (fork thread0 frame0 (fun _ => none) entryTable0).isErr = false ∧
    ∃ msg, fork thread0 frame0 (fun _ => none) entryTable0 =
      KOutcome.panicked msg :=
  ⟨(fork_never_returns_err thread0 frame0 (fun _ => none) entryTable0).1,
   (fork_never_returns_err thread0 frame0 (fun _ => none) entryTable0).2
     (Or.inl rfl)⟩

/-- C1 counterexample: when the very first page request of fork (the
xsave area) cannot be satisfied, fork panics through .expect instead of
returning the allocation-failure Err the claim promises to the caller. -/
theorem fork_alloc_failure_panics_counterexample :
    fork thread0 frame0 (fun _ => none) entryTable0 =
      KOutcome.panicked "failed to allocate xsave area" ∧
    (fork thread0 frame0 (fun _ => none) entryTable0).isErr = false :=
  ⟨rfl, rfl⟩

/-- C2: for every captured syscall frame (arbitrary register values,
all-zero and all-ones included), the Thread built by fork has an IRET
layer that carries exactly the captured rip, rflags and rsp (together
with the user-mode selectors), and a forked_child_entry layer that
carries exactly each captured argument register rdi, rsi, rdx, r10, r8
and r9 (together with the rflags and rip copies destined for r11 and
rcx). -/
theorem fork_frame_reproduces_parent_trap_state (self : Thread)
    (frame : SyscallFrame) (alloc : Nat → Option Nat) (E : EntryTable)
    (t : Thread) (h : fork self frame alloc E = KOutcome.ok t) :
    t.rspStack.drop 16 =
      [frame.rip, E.USER_CS64 ||| E.USER_RPL, frame.rflags, frame.rsp,
       E.USER_DS ||| E.USER_RPL] ∧
    (t.rspStack.drop 8).take 8 =
      [frame.rdx, frame.rdi, frame.rsi, frame.r8, frame.r9, frame.r10,
       frame.rip, frame.rflags] := by
  cases h0 : alloc 0 with
  | none => simp [fork, h0] at h
  | some xa =>
    cases h1 : alloc 1 with
    | none => simp [fork, h0, h1] at h
    | some ksp =>
      cases h2 : alloc 2 with
      | none => simp [fork, h0, h1, h2] at h
      | some ist =>
        cases h3 : alloc 3 with
        | none => simp [fork, h0, h1, h2, h3] at h
        | some sst =>
          simp [fork, h0, h1, h2, h3, push_stack] at h
          subst h
          exact ⟨rfl, rfl⟩

/-- Witness for the C2 theorem at concrete inputs, with the all-ones
64-bit value as the captured instruction pointer. -/
theorem fork_frame_reproduces_parent_trap_state_witness :
    (Kerla.fork thread0
        { frame0 with rip := 0xFFFFFFFFFFFFFFFF } allocOk entryTable0 =
      KOutcome.ok
        { rspAddr := 0x7F58,
          rspStack :=
            [0x02, 12, 11, 10, 9, 8, 7, 0x3333, 3, 1, 2, 4, 5, 6,
             0xFFFFFFFFFFFFFFFF, 0x246, 0xFFFFFFFFFFFFFFFF, 0x23, 0x246,
             0xB2, 0x1B],
          fsbase := 0x77, xsave_area := some 0x7000,
          interrupt_stack := 0x9000, syscall_stack := 0xA000 }) ∧
    ([0x02, 12, 11, 10, 9, 8, 7, 0x3333, 3, 1, 2, 4, 5, 6,
      0xFFFFFFFFFFFFFFFF, 0x246, 0xFFFFFFFFFFFFFFFF, 0x23, 0x246,
      0xB2, 0x1B] : List Nat).drop 16 =
      [0xFFFFFFFFFFFFFFFF, 0x23, 0x246, 0xB2, 0x1B] := by
  have h : Kerla.fork thread0 { frame0 with rip := 0xFFFFFFFFFFFFFFFF }
      allocOk entryTable0 =
      KOutcome.ok
        { rspAddr := 0x7F58,
          rspStack :=
            [0x02, 12, 11, 10, 9, 8, 7, 0x3333, 3, 1, 2, 4, 5, 6,
             0xFFFFFFFFFFFFFFFF, 0x246, 0xFFFFFFFFFFFFFFFF, 0x23, 0x246,
             0xB2, 0x1B],
          fsbase := 0x77, xsave_area := some 0x7000,
          interrupt_stack := 0x9000, syscall_stack := 0xA000 } := by decide
  refine ⟨h, ?_⟩
  have h2 := fork_frame_reproduces_parent_trap_state thread0
    { frame0 with rip := 0xFFFFFFFFFFFFFFFF } allocOk entryTable0 _ h
  have h3 := h2.1
  simp only [entryTable0, frame0] at h3
  exact h3

/-- C10: the do_switch_thread footer built by fork carries the captured
callee-saved registers of the parent (rbp, rbx, r12, r13, r14, r15 from
the syscall frame), whereas the footers built by new_kthread and
new_user_thread zero all six general-purpose save slots; so the first
cooperative switch-in of the child restores exactly the parent
callee-saved state. -/
theorem fork_switch_footer_carries_callee_saved (self : Thread)
    (frame : SyscallFrame) (alloc alloc' alloc'' : Nat → Option Nat)
    (E : EntryTable) (ip sp ip2 sp2 kernel_sp : Nat) (t t1 t2 : Thread)
    (hf : fork self frame alloc E = KOutcome.ok t)
    (hk : new_kthread E alloc' ip sp = KOutcome.ok t1)
    (hu : new_user_thread E alloc'' ip2 sp2 kernel_sp = KOutcome.ok t2) :
    t.rspStack.take 8 =
      [0x02, frame.r15, frame.r14, frame.r13, frame.r12, frame.rbx,
       frame.rbp, E.forked_child_entry] ∧
    t1.rspStack.take 8 = [0x02, 0, 0, 0, 0, 0, 0, E.kthread_entry] ∧
    t2.rspStack.take 8 = [0x02, 0, 0, 0, 0, 0, 0, E.userland_entry] := by
  refine ⟨?_, ?_, ?_⟩
  · cases h0 : alloc 0 with
    | none => simp [fork, h0] at hf
    | some xa =>
      cases h1 : alloc 1 with
      | none => simp [fork, h0, h1] at hf
      | some ksp =>
        cases h2 : alloc 2 with
        | none => simp [fork, h0, h1, h2] at hf
        | some ist =>
          cases h3 : alloc 3 with
          | none => simp [fork, h0, h1, h2, h3] at hf
          | some sst =>
            simp [fork, h0, h1, h2, h3, push_stack] at hf
            subst hf
            rfl
  · cases h0 : alloc' 0 with
    | none => simp [new_kthread, h0] at hk
    | some a =>
      cases h1 : alloc' 1 with
      | none => simp [new_kthread, h0, h1] at hk
      | some b =>
        simp [new_kthread, h0, h1, push_stack] at hk
        subst hk
        rfl
  · cases h0 : alloc'' 0 with
    | none => simp [new_user_thread, h0] at hu
    | some a =>
      cases h1 : alloc'' 1 with
      | none => simp [new_user_thread, h0, h1] at hu
      | some b =>
        cases h2 : alloc'' 2 with
        | none => simp [new_user_thread, h0, h1, h2] at hu
        | some c =>
          simp [new_user_thread, h0, h1, h2, push_stack] at hu
          subst hu
          rfl

/-- Witness for the C10 theorem at concrete inputs. -/
theorem fork_switch_footer_carries_callee_saved_witness :
    (Kerla.fork thread0 frame0 allocOk entryTable0 =
      KOutcome.ok
        { rspAddr := 0x7F58,
          rspStack :=
            [0x02, 12, 11, 10, 9, 8, 7, 0x3333, 3, 1, 2, 4, 5, 6, 0xA1,
             0x246, 0xA1, 0x23, 0x246, 0xB2, 0x1B],
          fsbase := 0x77, xsave_area := some 0x7000,
          interrupt_stack := 0x9000, syscall_stack := 0xA000 }) ∧
    ([0x02, 12, 11, 10, 9, 8, 7, 0x3333, 3, 1, 2, 4, 5, 6, 0xA1,
      0x246, 0xA1, 0x23, 0x246, 0xB2, 0x1B] : List Nat).take 8 =
      [0x02, 12, 11, 10, 9, 8, 7, 0x3333] ∧
    kthread0.rspStack.take 8 = [0x02, 0, 0, 0, 0, 0, 0, 0x1111] := by
  have hf : Kerla.fork thread0 frame0 allocOk entryTable0 =
      KOutcome.ok
        { rspAddr := 0x7F58,
          rspStack :=
            [0x02, 12, 11, 10, 9, 8, 7, 0x3333, 3, 1, 2, 4, 5, 6, 0xA1,
             0x246, 0xA1, 0x23, 0x246, 0xB2, 0x1B],
          fsbase := 0x77, xsave_area := some 0x7000,
          interrupt_stack := 0x9000, syscall_stack := 0xA000 } := by decide
  have hk : new_kthread entryTable0 allocOk 0x42 0x9000 =
      KOutcome.ok kthread0 := by decide
  have hu : new_user_thread entryTable0 allocOk 0xA1 0xB2 0x9000 =
      KOutcome.ok userThread0 := by decide
  have h := fork_switch_footer_carries_callee_saved thread0 frame0
    allocOk allocOk allocOk entryTable0 0x42 0x9000 0xA1 0xB2 0x9000
    _ _ _ hf hk hu
  refine ⟨hf, ?_, ?_⟩
  · have h1 := h.1
    simp only [frame0, entryTable0] at h1
    exact h1
  · have h2 := h.2.1
    simp only [entryTable0] at h2
    exact h2

/-- C5: delivering a signal to a suspended (non-self) target builds the
signal layers directly atop the existing frame at the saved stack
pointer: the new frame content is the 14-word signal layer (the
do_switch_thread footer pointing at signal_handler_entry on top of the
layer carrying the handler arguments, flags and user rip/rsp) followed,
unchanged, by the previous frame content; the saved stack pointer moves
down by exactly 14 words, so the prior value is recovered by popping
exactly 8 * 14 bytes, and dropping the 14 pushed words recovers the
prior frame exactly. -/
theorem set_signal_entry_remote_prepends_frame (t : Thread)
    (user_rip user_rsp arg1 arg2 arg3 : Nat) (E : EntryTable)
    (h : 8 * 14 ≤ t.rspAddr) :
    ((set_signal_entry t user_rip user_rsp arg1 arg2 arg3 false E).1).rspStack =
      [0x02, 0, 0, 0, 0, 0, 0, E.signal_handler_entry,
       arg3, arg2, arg1, 0x202, user_rip, user_rsp] ++ t.rspStack ∧
    List.drop 14
        ((set_signal_entry t user_rip user_rsp arg1 arg2 arg3 false
          E).1).rspStack = t.rspStack ∧
    ((set_signal_entry t user_rip user_rsp arg1 arg2 arg3 false E).1).rspAddr
        + 8 * 14 = t.rspAddr := by
  refine ⟨rfl, rfl, ?_⟩
  simp only [set_signal_entry, push_stack, Bool.false_eq_true, if_false]
  omega

/-- Witness for the C5 theorem at concrete inputs. -/
theorem set_signal_entry_remote_prepends_frame_witness :
    8 * 14 ≤ thread0.rspAddr ∧
    (((set_signal_entry thread0 0xC1 0xC2 21 22 23 false
        entryTable0).1).rspStack =
      [0x02, 0, 0, 0, 0, 0, 0, entryTable0.signal_handler_entry,
       23, 22, 21, 0x202, 0xC1, 0xC2] ++ thread0.rspStack ∧
    List.drop 14
        (((set_signal_entry thread0 0xC1 0xC2 21 22 23 false
          entryTable0).1).rspStack) = thread0.rspStack ∧
    ((set_signal_entry thread0 0xC1 0xC2 21 22 23 false
        entryTable0).1).rspAddr + 8 * 14 = thread0.rspAddr) :=
  ⟨by decide,
   set_signal_entry_remote_prepends_frame thread0 0xC1 0xC2 21 22 23
     entryTable0 (by decide)⟩

/-- C6: delivering a signal with is_current_process = true never touches
the target thread record (in particular its saved stack pointer): the
frame is built entirely on the scratch buffer (no push lands on the
thread stack, no write of this.rsp occurs), and the effect trace ends
with the guard drop immediately followed by the non-returning jump, so
the target lock is never left held after the transfer. -/
theorem set_signal_entry_self_releases_lock (t : Thread)
    (user_rip user_rsp arg1 arg2 arg3 : Nat) (E : EntryTable) :
    (set_signal_entry t user_rip user_rsp arg1 arg2 arg3 true E).1 = t ∧
    List.countP (fun e => SigEvent.isPushOwn e)
      (set_signal_entry t user_rip user_rsp arg1 arg2 arg3 true E).2 = 0 ∧
    List.countP (fun e => SigEvent.isWriteRsp e)
      (set_signal_entry t user_rip user_rsp arg1 arg2 arg3 true E).2 = 0 ∧
    ∃ l, (set_signal_entry t user_rip user_rsp arg1 arg2 arg3 true E).2 =
      l ++ [SigEvent.dropLock, SigEvent.jumpDirect] :=
  ⟨rfl, rfl, rfl,
   ⟨[.pushScratch user_rsp, .pushScratch user_rip, .pushScratch 0x202,
     .pushScratch arg1, .pushScratch arg2, .pushScratch arg3], rfl⟩⟩

/-- C7: every switch writes the syscall-stack top of next (stack base
plus KERNEL_STACK_SIZE) into the per-core head.rsp0 slot, the
interrupt-stack top of next into the hardware task descriptor, and
loads next.fsbase into the thread-local base register, and all three
writes happen strictly before the do_switch_thread register exchange,
which is the last event of the trace. -/
theorem switch_thread_repoints_stacks_before_exchange
    (prev next : Thread) (xcr0 : Nat) :
    ∃ l, switch_thread prev next xcr0 = l ++ [SwitchEvent.doSwitch] ∧
      SwitchEvent.setCpuRsp0 (next.syscall_stack + KERNEL_STACK_SIZE) ∈ l ∧
      SwitchEvent.setTssRsp0 (next.interrupt_stack + KERNEL_STACK_SIZE) ∈ l ∧
      SwitchEvent.setFsbase next.fsbase ∈ l := by
  rcases hp : prev.xsave_area with _ | b <;> rcases hn : next.xsave_area with _ | c
  · exact ⟨[.setCpuRsp0 (next.syscall_stack + KERNEL_STACK_SIZE),
            .setTssRsp0 (next.interrupt_stack + KERNEL_STACK_SIZE),
            .readXcr0, .setRsp3 RSP3_POISON, .setFsbase next.fsbase],
           by simp [switch_thread, hp, hn], by simp, by simp, by simp⟩
  · exact ⟨[.setCpuRsp0 (next.syscall_stack + KERNEL_STACK_SIZE),
            .setTssRsp0 (next.interrupt_stack + KERNEL_STACK_SIZE),
            .readXcr0, .xrstorFrom c xcr0, .setRsp3 RSP3_POISON,
            .setFsbase next.fsbase],
           by simp [switch_thread, hp, hn], by simp, by simp, by simp⟩
  · exact ⟨[.setCpuRsp0 (next.syscall_stack + KERNEL_STACK_SIZE),
            .setTssRsp0 (next.interrupt_stack + KERNEL_STACK_SIZE),
            .readXcr0, .xsaveTo b xcr0, .setRsp3 RSP3_POISON,
            .setFsbase next.fsbase],
           by simp [switch_thread, hp, hn], by simp, by simp, by simp⟩
  · exact ⟨[.setCpuRsp0 (next.syscall_stack + KERNEL_STACK_SIZE),
            .setTssRsp0 (next.interrupt_stack + KERNEL_STACK_SIZE),
            .readXcr0, .xsaveTo b xcr0, .xrstorFrom c xcr0,
            .setRsp3 RSP3_POISON, .setFsbase next.fsbase],
           by simp [switch_thread, hp, hn], by simp, by simp, by simp⟩

/-- C8: the extended-state transfer in switch_thread is gated on buffer
presence: an xsave into a buffer occurs exactly when that buffer is the
xsave_area of prev, an xrstor from a buffer occurs exactly when it is
the xsave_area of next, both always use the feature mask read by the
single xcr0 read of the call (the trace contains exactly one such
read); in particular when neither context has a buffer the trace
contains no xsave and no xrstor event, and the switch still completes
normally. -/
theorem switch_thread_xsave_gating (prev next : Thread)
    (xcr0 buf mask : Nat) :
    (SwitchEvent.xsaveTo buf mask ∈ switch_thread prev next xcr0 ↔
      prev.xsave_area = some buf ∧ mask = xcr0) ∧
    (SwitchEvent.xrstorFrom buf mask ∈ switch_thread prev next xcr0 ↔
      next.xsave_area = some buf ∧ mask = xcr0) ∧
    List.countP (fun e => SwitchEvent.isReadXcr0 e)
      (switch_thread prev next xcr0) = 1 := by
  rcases hp : prev.xsave_area with _ | b <;>
    rcases hn : next.xsave_area with _ | c <;>
    refine ⟨?_, ?_, by simp [switch_thread, hp, hn, List.countP,
      List.countP.go, SwitchEvent.isReadXcr0]⟩ <;>
    simp [switch_thread, hp, hn, eq_comm]

/-- C9: every switch, whatever the two contexts and the feature mask,
writes the poisoned sentinel 0xbaad5a5a5b5bbaad into the per-core
head.rsp3 slot; the sentinel is recognizable because it is not a
canonical x86-64 address (its value lies strictly between the canonical
lower and upper halves), so a consumer that dereferences it before the
next legitimate overwrite faults loudly instead of proceeding
silently. -/
theorem switch_thread_poisons_rsp3 (prev next : Thread) (xcr0 : Nat) :
    SwitchEvent.setRsp3 RSP3_POISON ∈ switch_thread prev next xcr0 ∧
    2 ^ 47 ≤ RSP3_POISON ∧ RSP3_POISON < 2 ^ 64 - 2 ^ 47 := by
  refine ⟨?_, by decide, by decide⟩
  rcases hp : prev.xsave_area with _ | b <;>
    rcases hn : next.xsave_area with _ | c <;>
    simp [switch_thread, hp, hn]

end Kerla
